import Mathlib

/-!
Shallow embedding of `src/browserless_scraper.py` (function
`scrape_with_browserless`).

Python dictionaries are modelled as association lists in insertion order
(`dictInsert` replaces the value in place when the key exists, otherwise
appends, mirroring `d[k] = v`).  The HTML parse produced by BeautifulSoup
is abstracted as a `Page`: the visible text (`soup.get_text()`), the
`value` attributes of the inputs with class `form-control` in document
order, and the `href` attributes of all anchors that have one, in
document order.  The outcome of the single `requests.post` call is a
`FetchOutcome`: a response with status code, raw body and its parsed
`Page`, a `requests.Timeout`, or any other exception with its message.
The two regexes of the source are implemented directly as backtracking
matchers over `List Char` with `re.search` semantics.
-/

namespace BScraper

/-- Python `str.strip` / regex `\s` whitespace on the ASCII range. -/
def isSpaceC (c : Char) : Bool :=
  c = ' ' || c = '\t' || c = '\n' || c = '\r' || c = '\x0b' || c = '\x0c'

/-- Strip leading and trailing whitespace, Python `str.strip()`. -/
def pyStrip (s : String) : String :=
  String.mk (((s.toList.dropWhile isSpaceC).reverse.dropWhile isSpaceC).reverse)

/-- Python `str.upper()` on the ASCII range. -/
def pyUpper (s : String) : String := String.mk (s.toList.map Char.toUpper)

/-- If `p` is a leading piece of `l`, return what follows it. -/
def stripPre : List Char → List Char → Option (List Char)
  | [], l => some l
  | _ :: _, [] => none
  | a :: as, b :: bs => if a = b then stripPre as bs else none

/-- `l` starts with `p`. -/
def isPre (p l : List Char) : Bool := (stripPre p l).isSome

/-- Python `needle in hay` (substring test). -/
def containsSub (needle : List Char) : List Char → Bool
  | [] => isPre needle []
  | c :: cs => isPre needle (c :: cs) || containsSub needle cs

/-- `List.span`, written structurally so that it reduces in the kernel. -/
def spanP (p : Char → Bool) : List Char → List Char × List Char
  | [] => ([], [])
  | c :: cs =>
    if p c then
      let r := spanP p cs
      (c :: r.1, r.2)
    else ([], c :: cs)

/-! ### The header regex
`(\d{2}-\d{2}-\d+)\s+([A-Z][A-Z0-9\s\'\-\.]+?)(?:\s*Activity Type|\s*$)`
searched with `re.search` over the page text (line 75 of the source).
The greedy pieces `\d+` and `\s+` never need to backtrack here because
the character class that follows each of them is disjoint from their
own class, so maximal munch is faithful; the lazy `+?` of group 2 is
explored shortest-first. -/

/-- Character class `[A-Z0-9\s\'\-\.]` of group 2. -/
def isG2 (c : Char) : Bool :=
  c.isUpper || c.isDigit || isSpaceC c || c = '\'' || c = '-' || c = '.'

/-- The tail `(?:\s*Activity Type|\s*$)` matches at this position. -/
def tailOk (cs : List Char) : Bool :=
  isPre ("Activity Type".toList) (spanP isSpaceC cs).2 || cs.all isSpaceC

/-- Lazy `[A-Z0-9\s\'\-\.]+?` followed by `tailOk`: consume one class
character at a time and stop at the first point where the tail matches.
Returns the characters consumed by the quantifier. -/
def lazyG2 (acc : List Char) : List Char → Option (List Char)
  | [] => none
  | c :: cs =>
    if isG2 c then
      if tailOk cs then some (acc ++ [c]) else lazyG2 (acc ++ [c]) cs
    else none

/-- Try the whole header pattern anchored at this position; on success
return (group 1, group 2). -/
def matchAt (cs : List Char) : Option (List Char × List Char) :=
  match cs with
  | a :: b :: '-' :: c :: d :: '-' :: rest =>
    if a.isDigit && b.isDigit && c.isDigit && d.isDigit then
      let r1 := spanP Char.isDigit rest
      if r1.1.isEmpty then none
      else
        let r2 := spanP isSpaceC r1.2
        if r2.1.isEmpty then none
        else
          match r2.2 with
          | e :: r3 =>
            if e.isUpper then
              match lazyG2 [] r3 with
              | some g2 => some (a :: b :: '-' :: c :: d :: '-' :: r1.1, e :: g2)
              | none => none
            else none
          | [] => none
    else none
  | _ => none

/-- `re.search`: leftmost starting position that admits a match. -/
def headerSearch : List Char → Option (List Char × List Char)
  | [] => none
  | c :: cs =>
    match matchAt (c :: cs) with
    | some r => some r
    | none => headerSearch cs

/-! ### Dictionaries -/

/-- Python `k in d`: presence of a key. -/
def dmem (d : List (String × α)) (k : String) : Bool :=
  match d with
  | [] => false
  | (k', _) :: t => k' = k || dmem t k

/-- Python `d[k] = v`: replace in place when the key is present,
otherwise append. -/
def dictInsert (d : List (String × α)) (k : String) (v : α) : List (String × α) :=
  if dmem d k then d.map (fun p => if p.1 = k then (k, v) else p)
  else d ++ [(k, v)]

/-- Python `d.get(k)`: first binding of `k`. -/
def dget (d : List (String × α)) (k : String) : Option α :=
  match d with
  | [] => none
  | (k', v) :: t => if k' = k then some v else dget t k

/-! ### Data model -/

/-- Abstraction of the BeautifulSoup parse of the rendered HTML. -/
structure Page where
  /-- `soup.get_text()` -/
  text : String
  /-- `inp.get('value', '')` for the inputs with class `form-control`,
  in document order (line 84). -/
  inputValues : List String
  /-- `href` attributes of all anchors that carry one, in document
  order; the regex filter of line 129 is applied in `collectDocs`. -/
  anchorHrefs : List String
  deriving DecidableEq, Repr

/-- One entry of the `documents` list (lines 138-144). -/
structure Document where
  id : Nat
  download_url : String
  category : String
  name : String
  comment : String
  deriving DecidableEq, Repr

/-- A value of the `risk_flags` dictionary: the string `status_label`
or a boolean flag. -/
inductive FVal where
  | s (v : String)
  | b (v : Bool)
  deriving DecidableEq, Repr

/-- A value of the returned result dictionary. -/
inductive RVal where
  | info (d : List (String × String))
  | flags (d : List (String × FVal))
  | docs (ds : List Document)
  | str (v : String)
  | none_
  deriving DecidableEq, Repr

/-- The dictionary returned by `scrape_with_browserless`, with its
keys in the order of the corresponding Python dict literal. -/
abbrev Result := List (String × RVal)

/-- Behaviour of the single `requests.post` call (lines 54-59): a
response (status code, raw body text, and the `Page` that
`BeautifulSoup` produces from that body), a `requests.Timeout`, or any
other exception carrying `str(e)`. -/
inductive FetchOutcome where
  | response (status : Nat) (body : String) (parsed : Page)
  | timeout
  | exc (msg : String)
  deriving DecidableEq, Repr

/-! ### The pipeline stages -/

/-- Lines 75-81: apply the header regex to the page text and record
`activity_number` and `location_name` when it matches. -/
def extractHeader (si : List (String × String)) (pageText : List Char) :
    List (String × String) :=
  match headerSearch pageText with
  | some (g1, g2) =>
    dictInsert (dictInsert si "activity_number" (String.mk g1))
      "location_name" (pyStrip (String.mk g2))
  | none => si

/-- Lines 88-106: the positional field table. -/
def fieldMap : List (Nat × String) :=
  [(0, "activity_type"), (1, "status"), (2, "jurisdiction"), (3, "dnr_region"),
   (4, "county"), (5, "location_name"), (6, "address"), (7, "municipality"),
   (8, "plss_description"), (9, "latitude"), (10, "longitude"), (11, "acres"),
   (12, "facility_id"), (13, "pecfa_number"), (14, "epa_id"),
   (15, "start_date"), (16, "end_date")]

/-- Lines 108-113: write each in-range non-empty value under its
positional name, never overwriting a `location_name` the header set. -/
def applyFields : List (Nat × String) → List (String × String) → List String →
    List (String × String)
  | [], si, _ => si
  | (idx, key) :: rest, si, values =>
    let si' :=
      if idx < values.length ∧ values.getD idx "" ≠ "" then
        if key = "location_name" ∧ dmem si "location_name" then si
        else dictInsert si key (values.getD idx "")
      else si
    applyFields rest si' values

/-- Line 121: `activity_type == "LUST" or "petroleum" in page_text.lower()`. -/
def petroCond (si : List (String × String)) (pageText : List Char) : Bool :=
  pyUpper ((dget si "activity_type").getD "") = "LUST" ||
    containsSub ("petroleum".toList) (pageText.map Char.toLower)

/-- Line 123: `"pfas" in page_text.lower()`. -/
def pfasCond (pageText : List Char) : Bool :=
  containsSub ("pfas".toList) (pageText.map Char.toLower)

/-- Line 125: `any(m in page_text.lower() for m in [...])`. -/
def metalsCond (pageText : List Char) : Bool :=
  ["arsenic", "lead", "mercury", "chromium"].any fun m =>
    containsSub m.toList (pageText.map Char.toLower)

/-- Lines 116-126: derive the risk flags from `site_info` and the
lowercased page text. -/
def computeFlags (rf : List (String × FVal)) (si : List (String × String))
    (pageText : List Char) : List (String × FVal) :=
  let status := pyUpper ((dget si "status").getD "")
  let rf1 := dictInsert rf "status_label"
    (FVal.s (if status ≠ "" then status else "UNKNOWN"))
  let rf2 :=
    if petroCond si pageText then dictInsert rf1 "petroleum" (FVal.b true)
    else rf1
  let rf3 :=
    if pfasCond pageText then dictInsert rf2 "pfas" (FVal.b true)
    else rf2
  if metalsCond pageText then dictInsert rf3 "heavy_metals" (FVal.b true)
  else rf3

/-- Line 129's filter `re.compile(r'download-document|docSeqNo')`
applied to an href (`re.search`, i.e. substring). -/
def docPattern (h : String) : Bool :=
  containsSub ("download-document".toList) h.toList ||
    containsSub ("docSeqNo".toList) h.toList

/-- Line 132-133: make a relative href absolute. -/
def resolveUrl (href : String) : String :=
  if isPre ("http".toList) href.toList then href
  else "https://apps.dnr.wi.gov" ++ href

/-- `docSeqNo=(\d+)` anchored at this position: the literal followed
by a maximal non-empty digit run. -/
def seqTry (l : List Char) : Option (List Char) :=
  match stripPre ("docSeqNo=".toList) l with
  | some rest =>
    let ds := rest.takeWhile Char.isDigit
    if ds = [] then none else some ds
  | none => none

/-- `re.search(r'docSeqNo=(\d+)', href)`: leftmost match. -/
def findSeq : List Char → Option (List Char)
  | [] => none
  | c :: cs =>
    match seqTry (c :: cs) with
    | some ds => some ds
    | none => findSeq cs

/-- Lines 135-136: the sequence identifier of the `n`-th collected
document with resolved url `u`. -/
def seqIdOf (n : Nat) (u : String) : String :=
  match findSeq u.toList with
  | some ds => String.mk ds
  | none => toString n

/-- The document appended at lines 138-144 when `documents` already
holds `n` entries. -/
def mkDoc (n : Nat) (href : String) : Document :=
  { id := n
    download_url := resolveUrl href
    category := "Site File"
    name := "Site File Documentation (ID: " ++ seqIdOf n (resolveUrl href) ++ ")"
    comment := "DNR site documentation" }

/-- The loop of lines 129-144 over the already-filtered hrefs. -/
def collectAux : List String → List Document → List Document
  | [], docs => docs
  | href :: rest, docs =>
    if href ≠ "" then collectAux rest (docs ++ [mkDoc docs.length href])
    else collectAux rest docs

/-- Index-passing form of the document loop, used to characterise
`collectAux`: the `n`-th appended document is built with running count
`n`. -/
def buildAux (n : Nat) : List String → List Document
  | [] => []
  | href :: rest =>
    if href ≠ "" then mkDoc n href :: buildAux (n + 1) rest
    else buildAux n rest

/-- Lines 129-144: filter the anchors by the pattern and collect the
documents. -/
def collectDocs (hrefs : List String) : List Document :=
  collectAux (hrefs.filter docPattern) []

/-- Lines 70-157: everything that happens after a 200 response, given
the parsed page. -/
def scrapeSuccess (dsn : String) (page : Page) : Result :=
  let si1 := extractHeader [("dsn", dsn)] page.text.toList
  let values := page.inputValues.map pyStrip
  let si2 := applyFields fieldMap si1 values
  let rf := computeFlags [("status_label", FVal.s "UNKNOWN")] si2 page.text.toList
  let docs := collectDocs page.anchorHrefs
  let location := (dget si2 "location_name").getD "Unknown"
  let status := (dget si2 "status").getD "Unknown"
  let summary := "Site: " ++ location ++ " - Status: " ++ status
  [("site_info", RVal.info si2), ("risk_flags", RVal.flags rf),
   ("documents", RVal.docs docs), ("summary", RVal.str summary),
   ("error", RVal.none_)]

/-- The request assembled at lines 38-58 for the rendering API. -/
structure RenderRequest where
  url : String
  waitFor : Nat
  waitUntil : String
  apiUrl : String
  contentType : String
  timeout : Nat
  deriving DecidableEq, Repr

/-- Line 13. -/
def BROWSERLESS_URL : String := "https://chrome.browserless.io/content"

/-- Line 21. -/
def targetUrl (dsn : String) : String :=
  "https://apps.dnr.wi.gov/rrbotw/botw-activity-detail?dsn=" ++ dsn

/-- Lines 38-58: the payload, token-in-url endpoint and 60 second
timeout of the single outbound call. -/
def browserlessRequest (apiKey dsn : String) : RenderRequest :=
  { url := targetUrl dsn
    waitFor := 5000
    waitUntil := "networkidle2"
    apiUrl := BROWSERLESS_URL ++ "?token=" ++ apiKey
    contentType := "application/json"
    timeout := 60 }

/-- `scrape_with_browserless` (lines 16-174).  `apiKey` is the value of
the `BROWSERLESS_API_KEY` environment variable (empty when unset) and
`fetch` the behaviour of the upstream call. -/
def scrape (dsn : String) (apiKey : String) (fetch : FetchOutcome) : Result :=
  let site0 : List (String × String) := [("dsn", dsn)]
  let rf0 : List (String × FVal) := [("status_label", FVal.s "UNKNOWN")]
  let docs0 : List Document := []
  if apiKey = "" then
    [("site_info", RVal.info site0), ("risk_flags", RVal.flags rf0),
     ("documents", RVal.docs docs0),
     ("error", RVal.str "BROWSERLESS_API_KEY not set. Add it to environment variables."),
     ("summary", RVal.str "Browserless API key required for full scraping.")]
  else
    match fetch with
    | FetchOutcome.response status body parsed =>
      if status ≠ 200 then
        [("site_info", RVal.info site0), ("risk_flags", RVal.flags rf0),
         ("documents", RVal.docs docs0),
         ("error", RVal.str ("Browserless API error: " ++ toString status)),
         ("summary", RVal.str ("Failed to render page: " ++ String.mk (body.toList.take 200)))]
      else scrapeSuccess dsn parsed
    | FetchOutcome.timeout =>
      [("site_info", RVal.info site0), ("risk_flags", RVal.flags rf0),
       ("documents", RVal.docs docs0),
       ("error", RVal.str "Request timed out"),
       ("summary", RVal.str "Page load timed out")]
    | FetchOutcome.exc m =>
      [("site_info", RVal.info site0), ("risk_flags", RVal.flags rf0),
       ("documents", RVal.docs docs0),
       ("error", RVal.str m),
       ("summary", RVal.str ("Error: " ++ m))]

/-! ### Dictionary lemmas -/

theorem dget_map_ne {α : Type} (d : List (String × α)) (k j : String) (v : α)
    (h : k ≠ j) :
    dget (d.map fun p => if p.1 = k then (k, v) else p) j = dget d j := by
  induction d with
  | nil => rfl
  | cons p t ih =>
    obtain ⟨k', w⟩ := p
    simp only [List.map_cons]
    by_cases hk : k' = k
    · subst hk
      rw [if_pos rfl]
      simp only [dget]
      rw [if_neg h, if_neg h]
      exact ih
    · rw [if_neg hk]
      simp only [dget]
      by_cases hj : k' = j
      · rw [if_pos hj, if_pos hj]
      · rw [if_neg hj, if_neg hj]
        exact ih

theorem dget_map_eq {α : Type} (d : List (String × α)) (k : String) (v : α)
    (h : dmem d k = true) :
    dget (d.map fun p => if p.1 = k then (k, v) else p) k = some v := by
  induction d with
  | nil => simp [dmem] at h
  | cons p t ih =>
    obtain ⟨k', w⟩ := p
    simp only [List.map_cons]
    by_cases hk : k' = k
    · subst hk
      rw [if_pos rfl]
      simp [dget]
    · rw [if_neg hk]
      simp only [dget]
      rw [if_neg hk]
      apply ih
      simp only [dmem] at h
      rw [decide_eq_false hk] at h
      simpa using h

theorem dget_append_self {α : Type} (d : List (String × α)) (k : String) (v : α)
    (h : dmem d k = false) :
    dget (d ++ [(k, v)]) k = some v := by
  induction d with
  | nil => simp [dget]
  | cons p t ih =>
    obtain ⟨k', w⟩ := p
    simp only [dmem, Bool.or_eq_false_iff] at h
    have hk : k' ≠ k := of_decide_eq_false h.1
    simp [dget, hk, ih h.2]

theorem dget_append_ne {α : Type} (d : List (String × α)) (k j : String) (v : α)
    (h : k ≠ j) :
    dget (d ++ [(k, v)]) j = dget d j := by
  induction d with
  | nil => simp [dget, h]
  | cons p t ih =>
    obtain ⟨k', w⟩ := p
    by_cases hj : k' = j
    · subst hj
      simp [dget]
    · simp [dget, hj, ih]

/-- `d[k] = v` then lookup: the key `k` now maps to `v` and every other
key is untouched. -/
theorem dget_dictInsert {α : Type} (d : List (String × α)) (k : String) (v : α)
    (j : String) :
    dget (dictInsert d k v) j = if k = j then some v else dget d j := by
  unfold dictInsert
  by_cases hm : dmem d k
  · rw [if_pos hm]
    by_cases hj : k = j
    · subst hj
      rw [if_pos rfl]
      exact dget_map_eq d k v hm
    · rw [if_neg hj]
      exact dget_map_ne d k j v hj
  · rw [if_neg hm]
    by_cases hj : k = j
    · subst hj
      rw [if_pos rfl]
      exact dget_append_self d k v (Bool.eq_false_iff.mpr hm)
    · rw [if_neg hj]
      exact dget_append_ne d k j v hj

theorem dmem_map_upd {α : Type} (d : List (String × α)) (k : String) (v : α)
    (j : String) :
    dmem (d.map fun p => if p.1 = k then (k, v) else p) j = dmem d j := by
  induction d with
  | nil => rfl
  | cons p t ih =>
    obtain ⟨k', w⟩ := p
    simp only [List.map_cons]
    by_cases hk : k' = k
    · subst hk
      rw [if_pos rfl]
      simp only [dmem]
      rw [ih]
    · rw [if_neg hk]
      simp only [dmem]
      rw [ih]

theorem dmem_append_single {α : Type} (d : List (String × α)) (k : String)
    (v : α) (j : String) :
    dmem (d ++ [(k, v)]) j = (dmem d j || decide (k = j)) := by
  induction d with
  | nil => simp [dmem]
  | cons p t ih =>
    obtain ⟨k', w⟩ := p
    simp [dmem, ih, Bool.or_assoc]

/-- Membership after `d[k] = v`. -/
theorem dmem_dictInsert {α : Type} (d : List (String × α)) (k : String) (v : α)
    (j : String) :
    dmem (dictInsert d k v) j = (dmem d j || decide (k = j)) := by
  unfold dictInsert
  by_cases hm : dmem d k
  · rw [if_pos hm, dmem_map_upd]
    by_cases hj : k = j
    · subst hj
      simp [hm]
    · simp [hj]
  · rw [if_neg hm]
    exact dmem_append_single d k v j

/-! ### Positional-extraction lemmas -/

/-- The positional loop never touches a key that is not in its table. -/
theorem applyFields_dget_ne :
    ∀ (l : List (Nat × String)) (si : List (String × String))
      (values : List String) (j : String), (∀ p ∈ l, p.2 ≠ j) →
      dget (applyFields l si values) j = dget si j := by
  intro l
  induction l with
  | nil => intro si values j _; rfl
  | cons p rest ih =>
    obtain ⟨idx, key⟩ := p
    intro si values j h
    have hkey : key ≠ j := h (idx, key) (List.mem_cons_self _ _)
    have hrest : ∀ q ∈ rest, q.2 ≠ j := fun q hq => h q (List.mem_cons_of_mem _ hq)
    simp only [applyFields]
    rw [ih _ values j hrest]
    split
    · split
      · rfl
      · rw [dget_dictInsert, if_neg hkey]
    · rfl

/-- Once `location_name` is present, the positional loop never changes
its value (the `continue` of line 112). -/
theorem applyFields_loc :
    ∀ (l : List (Nat × String)) (si : List (String × String))
      (values : List String), dmem si "location_name" = true →
      dget (applyFields l si values) "location_name" =
        dget si "location_name" := by
  intro l
  induction l with
  | nil => intro si values _; rfl
  | cons p rest ih =>
    obtain ⟨idx, key⟩ := p
    intro si values hmem
    simp only [applyFields]
    by_cases hkey : key = "location_name"
    · subst hkey
      have hsi : (if idx < values.length ∧ values.getD idx "" ≠ "" then
          if "location_name" = "location_name" ∧ dmem si "location_name" then si
          else dictInsert si "location_name" (values.getD idx "")
        else si) = si := by
        rw [if_pos (⟨rfl, hmem⟩ : "location_name" = "location_name" ∧
          dmem si "location_name" = true)]
        exact ite_self si
      rw [hsi]
      exact ih si values hmem
    · split
      · rw [if_neg (fun hc => hkey hc.1)]
        rw [ih _ values (by rw [dmem_dictInsert, hmem]; rfl)]
        rw [dget_dictInsert, if_neg hkey]
      · exact ih si values hmem

/-- One step of the positional loop leaves every other key's value
unchanged. -/
theorem applyFields_step_dget_ne (i0 : Nat) (k0 j : String)
    (si : List (String × String)) (values : List String) (hk0 : k0 ≠ j) :
    dget (if i0 < values.length ∧ values.getD i0 "" ≠ "" then
        if k0 = "location_name" ∧ dmem si "location_name" then si
        else dictInsert si k0 (values.getD i0 "")
      else si) j = dget si j := by
  by_cases hcond : i0 < values.length ∧ values.getD i0 "" ≠ ""
  · rw [if_pos hcond]
    by_cases hguard : k0 = "location_name" ∧ dmem si "location_name" = true
    · rw [if_pos hguard]
    · rw [if_neg hguard, dget_dictInsert, if_neg hk0]
  · rw [if_neg hcond]

/-- One step of the positional loop leaves every other key's presence
unchanged. -/
theorem applyFields_step_dmem_ne (i0 : Nat) (k0 j : String)
    (si : List (String × String)) (values : List String) (hk0 : k0 ≠ j) :
    dmem (if i0 < values.length ∧ values.getD i0 "" ≠ "" then
        if k0 = "location_name" ∧ dmem si "location_name" then si
        else dictInsert si k0 (values.getD i0 "")
      else si) j = dmem si j := by
  by_cases hcond : i0 < values.length ∧ values.getD i0 "" ≠ ""
  · rw [if_pos hcond]
    by_cases hguard : k0 = "location_name" ∧ dmem si "location_name" = true
    · rw [if_pos hguard]
    · rw [if_neg hguard, dmem_dictInsert, decide_eq_false hk0, Bool.or_false]
  · rw [if_neg hcond]

/-- Full characterisation of one table entry `(i, j)`: provided no
other entry of the table uses the name `j` and `location_name` is not
already present when its own entry is reached, the loop writes
`values[i]` under `j` exactly when `i` is in range and the value
non-empty, and otherwise leaves `j` untouched. -/
theorem applyFields_dget_write :
    ∀ (l1 : List (Nat × String)) (i : Nat) (j : String)
      (l2 : List (Nat × String)) (si : List (String × String))
      (values : List String),
      (∀ p ∈ l1, p.2 ≠ j) → (∀ p ∈ l2, p.2 ≠ j) →
      (j = "location_name" → dmem si j = false) →
      dget (applyFields (l1 ++ (i, j) :: l2) si values) j =
        if i < values.length ∧ values.getD i "" ≠ "" then
          some (values.getD i "")
        else dget si j := by
  intro l1
  induction l1 with
  | nil =>
    intro i j l2 si values _ h2 h3
    simp only [List.nil_append, applyFields]
    rw [applyFields_dget_ne l2 _ values j h2]
    have hguard : ¬(j = "location_name" ∧ dmem si "location_name" = true) := by
      rintro ⟨hj, hm⟩
      subst hj
      rw [h3 rfl] at hm
      exact Bool.false_ne_true hm
    by_cases hcond : i < values.length ∧ values.getD i "" ≠ ""
    · rw [if_pos hcond, if_pos hcond, if_neg hguard, dget_dictInsert, if_pos rfl]
    · rw [if_neg hcond, if_neg hcond]
  | cons q l1 ih =>
    obtain ⟨i0, k0⟩ := q
    intro i j l2 si values h1 h2 h3
    have hk0 : k0 ≠ j := h1 (i0, k0) (List.mem_cons_self _ _)
    have h1' : ∀ p ∈ l1, p.2 ≠ j := fun p hp => h1 p (List.mem_cons_of_mem _ hp)
    simp only [List.cons_append, applyFields, List.append_eq]
    rw [ih i j l2 _ values h1' h2
      (fun hj => by
        rw [applyFields_step_dmem_ne i0 k0 j si values hk0]
        exact h3 hj)]
    rw [applyFields_step_dget_ne i0 k0 j si values hk0]

/-- The header step only writes `activity_number` and `location_name`. -/
theorem extractHeader_dget (si : List (String × String)) (t : List Char)
    (j : String) (h1 : "activity_number" ≠ j) (h2 : "location_name" ≠ j) :
    dget (extractHeader si t) j = dget si j := by
  unfold extractHeader
  cases headerSearch t with
  | none => rfl
  | some r =>
    obtain ⟨g1, g2⟩ := r
    rw [dget_dictInsert, if_neg h2, dget_dictInsert, if_neg h1]

/-! ### Document-collection lemmas -/

theorem collectAux_eq :
    ∀ (hrefs : List String) (docs : List Document),
      collectAux hrefs docs = docs ++ buildAux docs.length hrefs := by
  intro hrefs
  induction hrefs with
  | nil => intro docs; simp [collectAux, buildAux]
  | cons h t ih =>
    intro docs
    by_cases hne : h = ""
    · subst hne
      simp only [collectAux, buildAux, ne_eq, not_true_eq_false, if_false]
      exact ih docs
    · simp only [collectAux, buildAux, if_pos hne]
      rw [ih (docs ++ [mkDoc docs.length h])]
      simp [List.length_append]

theorem buildAux_length :
    ∀ (hrefs : List String) (n : Nat), (∀ x ∈ hrefs, x ≠ "") →
      (buildAux n hrefs).length = hrefs.length := by
  intro hrefs
  induction hrefs with
  | nil => intro n _; rfl
  | cons h t ih =>
    intro n hne
    simp only [buildAux, if_pos (hne h (List.mem_cons_self _ _))]
    simp only [List.length_cons]
    rw [ih (n + 1) (fun x hx => hne x (List.mem_cons_of_mem _ hx))]

theorem buildAux_getD :
    ∀ (hrefs : List String) (n i : Nat), (∀ x ∈ hrefs, x ≠ "") →
      i < hrefs.length →
      (buildAux n hrefs).getD i ⟨0, "", "", "", ""⟩ =
        mkDoc (n + i) (hrefs.getD i "") := by
  intro hrefs
  induction hrefs with
  | nil => intro n i _ hi; exact absurd hi (by simp)
  | cons h t ih =>
    intro n i hne hi
    simp only [buildAux, if_pos (hne h (List.mem_cons_self _ _))]
    cases i with
    | zero => simp [List.getD]
    | succ i =>
      simp only [List.getD_cons_succ]
      rw [ih (n + 1) i (fun x hx => hne x (List.mem_cons_of_mem _ hx))
        (by simpa using Nat.lt_of_succ_lt_succ hi)]
      have : n + 1 + i = n + (i + 1) := by omega
      rw [this]

theorem docPattern_ne_empty (h : String) (hp : docPattern h = true) : h ≠ "" := by
  intro he
  subst he
  exact absurd hp (by decide)

/-! ### Branch lemmas for `scrape` -/

theorem scrape_nokey (dsn : String) (fetch : FetchOutcome) :
    scrape dsn "" fetch =
      [("site_info", RVal.info [("dsn", dsn)]),
       ("risk_flags", RVal.flags [("status_label", FVal.s "UNKNOWN")]),
       ("documents", RVal.docs []),
       ("error", RVal.str "BROWSERLESS_API_KEY not set. Add it to environment variables."),
       ("summary", RVal.str "Browserless API key required for full scraping.")] := rfl

theorem scrape_response_ok (dsn apiKey : String) (hk : apiKey ≠ "")
    (body : String) (parsed : Page) :
    scrape dsn apiKey (FetchOutcome.response 200 body parsed) =
      scrapeSuccess dsn parsed := by
  simp [scrape, hk]

theorem scrape_response_ne (dsn apiKey : String) (hk : apiKey ≠ "")
    (status : Nat) (body : String) (parsed : Page) (hs : status ≠ 200) :
    scrape dsn apiKey (FetchOutcome.response status body parsed) =
      [("site_info", RVal.info [("dsn", dsn)]),
       ("risk_flags", RVal.flags [("status_label", FVal.s "UNKNOWN")]),
       ("documents", RVal.docs []),
       ("error", RVal.str ("Browserless API error: " ++ toString status)),
       ("summary", RVal.str ("Failed to render page: " ++ String.mk (body.toList.take 200)))] := by
  simp [scrape, hk, hs]

theorem scrape_timeout_eq (dsn apiKey : String) (hk : apiKey ≠ "") :
    scrape dsn apiKey FetchOutcome.timeout =
      [("site_info", RVal.info [("dsn", dsn)]),
       ("risk_flags", RVal.flags [("status_label", FVal.s "UNKNOWN")]),
       ("documents", RVal.docs []),
       ("error", RVal.str "Request timed out"),
       ("summary", RVal.str "Page load timed out")] := by
  simp [scrape, hk]

theorem scrape_exc_eq (dsn apiKey : String) (hk : apiKey ≠ "") (m : String) :
    scrape dsn apiKey (FetchOutcome.exc m) =
      [("site_info", RVal.info [("dsn", dsn)]),
       ("risk_flags", RVal.flags [("status_label", FVal.s "UNKNOWN")]),
       ("documents", RVal.docs []),
       ("error", RVal.str m),
       ("summary", RVal.str ("Error: " ++ m))] := by
  simp [scrape, hk]

/-! ### The claims -/

/-- C1: for every site identifier and every behaviour of the upstream
rendering service (success, non-200 status, timeout, or an exception
raised in the pipeline), `scrape` returns a well-formed `Result`: the
`error` field is always present, it is `None` exactly on the success
path (credential configured and a 200 response), and it is a non-null
string in every failure case. -/
theorem C1_error_field (dsn apiKey : String) (fetch : FetchOutcome) :
    ∃ v, dget (scrape dsn apiKey fetch) "error" = some v ∧
      (v = RVal.none_ ↔
        (apiKey ≠ "" ∧ ∃ b p, fetch = FetchOutcome.response 200 b p)) ∧
      (v = RVal.none_ ∨ ∃ m, v = RVal.str m) := by
  by_cases hk : apiKey = ""
  · subst hk
    refine ⟨RVal.str "BROWSERLESS_API_KEY not set. Add it to environment variables.",
      rfl, ?_, Or.inr ⟨_, rfl⟩⟩
    constructor
    · intro hv
      exact RVal.noConfusion hv
    · rintro ⟨hne, -⟩
      exact absurd rfl hne
  · cases fetch with
    | response status body parsed =>
      by_cases hs : status = 200
      · subst hs
        refine ⟨RVal.none_, ?_, ?_, Or.inl rfl⟩
        · rw [scrape_response_ok dsn apiKey hk body parsed]
          rfl
        · exact ⟨fun _ => ⟨hk, body, parsed, rfl⟩, fun _ => rfl⟩
      · refine ⟨RVal.str ("Browserless API error: " ++ toString status), ?_, ?_,
          Or.inr ⟨_, rfl⟩⟩
        · rw [scrape_response_ne dsn apiKey hk status body parsed hs]
          rfl
        · constructor
          · intro hv
            exact RVal.noConfusion hv
          · rintro ⟨-, b, p, he⟩
            injection he with h1 h2 h3
            exact absurd h1 hs
    | timeout =>
      refine ⟨RVal.str "Request timed out", ?_, ?_, Or.inr ⟨_, rfl⟩⟩
      · rw [scrape_timeout_eq dsn apiKey hk]
        rfl
      · constructor
        · intro hv
          exact RVal.noConfusion hv
        · rintro ⟨-, b, p, he⟩
          exact FetchOutcome.noConfusion he
    | exc m =>
      refine ⟨RVal.str m, ?_, ?_, Or.inr ⟨_, rfl⟩⟩
      · rw [scrape_exc_eq dsn apiKey hk m]
        rfl
      · constructor
        · intro hv
          exact RVal.noConfusion hv
        · rintro ⟨-, b, p, he⟩
          exact FetchOutcome.noConfusion he

/-- C2: every failure `Result` (non-null `error`) carries only the
initial sentinel structures: `site_info = {dsn: identifier}`,
`risk_flags = {status_label: "UNKNOWN"}` and `documents = []`; no
error result exposes partially populated extraction data. -/
theorem C2_failure_sentinels (dsn apiKey : String) (fetch : FetchOutcome)
    (h : dget (scrape dsn apiKey fetch) "error" ≠ some RVal.none_) :
    dget (scrape dsn apiKey fetch) "site_info" = some (RVal.info [("dsn", dsn)]) ∧
    dget (scrape dsn apiKey fetch) "risk_flags" =
      some (RVal.flags [("status_label", FVal.s "UNKNOWN")]) ∧
    dget (scrape dsn apiKey fetch) "documents" = some (RVal.docs []) := by
  by_cases hk : apiKey = ""
  · subst hk
    exact ⟨rfl, rfl, rfl⟩
  · cases fetch with
    | response status body parsed =>
      by_cases hs : status = 200
      · subst hs
        exfalso
        apply h
        rw [scrape_response_ok dsn apiKey hk body parsed]
        rfl
      · rw [scrape_response_ne dsn apiKey hk status body parsed hs]
        exact ⟨rfl, rfl, rfl⟩
    | timeout =>
      rw [scrape_timeout_eq dsn apiKey hk]
      exact ⟨rfl, rfl, rfl⟩
    | exc m =>
      rw [scrape_exc_eq dsn apiKey hk m]
      exact ⟨rfl, rfl, rfl⟩

theorem C2_failure_sentinels_witness :
    dget (scrape "271147" "" FetchOutcome.timeout) "site_info" =
      some (RVal.info [("dsn", "271147")]) ∧
    dget (scrape "271147" "" FetchOutcome.timeout) "risk_flags" =
      some (RVal.flags [("status_label", FVal.s "UNKNOWN")]) ∧
    dget (scrape "271147" "" FetchOutcome.timeout) "documents" =
      some (RVal.docs []) :=
  C2_failure_sentinels "271147" "" FetchOutcome.timeout (by decide)

/-- C7: with no credential configured (empty `BROWSERLESS_API_KEY`),
`scrape` short-circuits independently of any network behaviour and
returns the missing-credential error result with
`site_info = {dsn: identifier}`, `risk_flags = {status_label: "UNKNOWN"}`
and `documents = []`. -/
theorem C7_missing_credential (dsn : String) (fetch fetch' : FetchOutcome) :
    scrape dsn "" fetch =
      [("site_info", RVal.info [("dsn", dsn)]),
       ("risk_flags", RVal.flags [("status_label", FVal.s "UNKNOWN")]),
       ("documents", RVal.docs []),
       ("error", RVal.str "BROWSERLESS_API_KEY not set. Add it to environment variables."),
       ("summary", RVal.str "Browserless API key required for full scraping.")] ∧
    scrape dsn "" fetch = scrape dsn "" fetch' :=
  ⟨rfl, rfl⟩

/-- C8: the single outbound HTTP call carries a 60-second timeout, and
a timeout yields `error = "Request timed out"` with the sentinel
`site_info`, `risk_flags` and `documents`. -/
theorem C8_timeout_result (dsn apiKey : String) (hk : apiKey ≠ "") :
    (browserlessRequest apiKey dsn).timeout = 60 ∧
    scrape dsn apiKey FetchOutcome.timeout =
      [("site_info", RVal.info [("dsn", dsn)]),
       ("risk_flags", RVal.flags [("status_label", FVal.s "UNKNOWN")]),
       ("documents", RVal.docs []),
       ("error", RVal.str "Request timed out"),
       ("summary", RVal.str "Page load timed out")] :=
  ⟨rfl, scrape_timeout_eq dsn apiKey hk⟩

theorem C8_timeout_result_witness :
    (browserlessRequest "token" "271147").timeout = 60 ∧
    scrape "271147" "token" FetchOutcome.timeout =
      [("site_info", RVal.info [("dsn", "271147")]),
       ("risk_flags", RVal.flags [("status_label", FVal.s "UNKNOWN")]),
       ("documents", RVal.docs []),
       ("error", RVal.str "Request timed out"),
       ("summary", RVal.str "Page load timed out")] :=
  C8_timeout_result "271147" "token" (by decide)

/-- C9: the parsing stages are pure functions of the parsed input: the
returned `Result` does not depend on the ambient credential value, and
on the success path it depends on the response only through its parsed
HTML, so identical input produces an identical `Result`. -/
theorem C9_parse_purity (dsn k1 k2 : String) (fetch : FetchOutcome)
    (h1 : k1 ≠ "") (h2 : k2 ≠ "") :
    scrape dsn k1 fetch = scrape dsn k2 fetch ∧
    (∀ body body' parsed,
      scrape dsn k1 (FetchOutcome.response 200 body parsed) =
        scrape dsn k1 (FetchOutcome.response 200 body' parsed)) := by
  constructor
  · cases fetch with
    | response status body parsed =>
      by_cases hs : status = 200
      · subst hs
        rw [scrape_response_ok dsn k1 h1 body parsed,
          scrape_response_ok dsn k2 h2 body parsed]
      · rw [scrape_response_ne dsn k1 h1 status body parsed hs,
          scrape_response_ne dsn k2 h2 status body parsed hs]
    | timeout => rw [scrape_timeout_eq dsn k1 h1, scrape_timeout_eq dsn k2 h2]
    | exc m => rw [scrape_exc_eq dsn k1 h1 m, scrape_exc_eq dsn k2 h2 m]
  · intro body body' parsed
    rw [scrape_response_ok dsn k1 h1 body parsed,
      scrape_response_ok dsn k1 h1 body' parsed]

theorem C9_parse_purity_witness :
    scrape "271147" "a" FetchOutcome.timeout =
      scrape "271147" "b" FetchOutcome.timeout :=
  (C9_parse_purity "271147" "a" "b" FetchOutcome.timeout (by decide) (by decide)).1

/-- C10: every `Result` returned by `scrape`, on every path, contains
exactly the five keys `site_info`, `risk_flags`, `documents`,
`summary` and `error`; and `site_info` always maps `"dsn"` to the
input identifier unchanged — no later stage overwrites it. -/
theorem C10_result_shape (dsn apiKey : String) (fetch : FetchOutcome) :
    ((scrape dsn apiKey fetch).map Prod.fst).Perm
      ["site_info", "risk_flags", "documents", "summary", "error"] ∧
    ∃ si, dget (scrape dsn apiKey fetch) "site_info" = some (RVal.info si) ∧
      dget si "dsn" = some dsn := by
  have hperm : (["site_info", "risk_flags", "documents", "error", "summary"] :
      List String).Perm
      ["site_info", "risk_flags", "documents", "summary", "error"] :=
    (((List.Perm.swap "summary" "error" []).cons "documents").cons
      "risk_flags").cons "site_info"
  by_cases hk : apiKey = ""
  · subst hk
    exact ⟨hperm, ⟨[("dsn", dsn)], rfl, rfl⟩⟩
  · cases fetch with
    | response status body parsed =>
      by_cases hs : status = 200
      · subst hs
        rw [scrape_response_ok dsn apiKey hk body parsed]
        constructor
        · exact List.Perm.refl _
        · refine ⟨_, rfl, ?_⟩
          rw [applyFields_dget_ne fieldMap _ _ "dsn" (by decide)]
          rw [extractHeader_dget _ _ "dsn" (by decide) (by decide)]
          rfl
      · rw [scrape_response_ne dsn apiKey hk status body parsed hs]
        exact ⟨hperm, ⟨[("dsn", dsn)], rfl, rfl⟩⟩
    | timeout =>
      rw [scrape_timeout_eq dsn apiKey hk]
      exact ⟨hperm, ⟨[("dsn", dsn)], rfl, rfl⟩⟩
    | exc m =>
      rw [scrape_exc_eq dsn apiKey hk m]
      exact ⟨hperm, ⟨[("dsn", dsn)], rfl, rfl⟩⟩

/-- C6: on the text `"27-11-47 EXAMPLE SITE NAME Activity Type ..."`
the header regex yields `activity_number = "27-11-47"` and
`location_name = "EXAMPLE SITE NAME"`; and once the header has set
`location_name`, the positional step never overwrites it, whatever the
input values are. -/
theorem C6_header_precedence :
    headerSearch ("27-11-47 EXAMPLE SITE NAME Activity Type ...".toList) =
      some ("27-11-47".toList, "EXAMPLE SITE NAME".toList) ∧
    (∀ dsn : String,
      extractHeader [("dsn", dsn)]
          ("27-11-47 EXAMPLE SITE NAME Activity Type ...".toList) =
        [("dsn", dsn), ("activity_number", "27-11-47"),
         ("location_name", "EXAMPLE SITE NAME")]) ∧
    (∀ (dsn a nm : String) (values : List String),
      dget (applyFields fieldMap
          [("dsn", dsn), ("activity_number", a), ("location_name", nm)] values)
        "location_name" = some nm) := by
  refine ⟨by decide, fun dsn => rfl, fun dsn a nm values => ?_⟩
  rw [applyFields_loc fieldMap
    [("dsn", dsn), ("activity_number", a), ("location_name", nm)] values rfl]
  rfl

/-- C5: the document collector maps the pattern-matching anchors, in
document order, to documents whose running 0-based index is the `id`,
whose `download_url` resolves relative hrefs against the fixed host,
whose name embeds the `docSeqNo` digits when present and otherwise the
running count, with fixed category and comment; in particular
`"/document?docSeqNo=4821"` yields the documented absolute URL and a
name containing `4821`, and a pattern-matching href without `docSeqNo`
falls back to the index. -/
theorem C5_document_collection :
    (∀ hrefs : List String,
      (collectDocs hrefs).length = (hrefs.filter docPattern).length ∧
      (∀ i, i < (hrefs.filter docPattern).length →
        (collectDocs hrefs).getD i ⟨0, "", "", "", ""⟩ =
          mkDoc i ((hrefs.filter docPattern).getD i ""))) ∧
    collectDocs ["/document?docSeqNo=4821"] =
      [{ id := 0
         download_url := "https://apps.dnr.wi.gov/document?docSeqNo=4821"
         category := "Site File"
         name := "Site File Documentation (ID: 4821)"
         comment := "DNR site documentation" }] ∧
    collectDocs ["/files/download-document/9"] =
      [{ id := 0
         download_url := "https://apps.dnr.wi.gov/files/download-document/9"
         category := "Site File"
         name := "Site File Documentation (ID: 0)"
         comment := "DNR site documentation" }] := by
  refine ⟨fun hrefs => ?_, by decide, by decide⟩
  have hne : ∀ x ∈ hrefs.filter docPattern, x ≠ "" := by
    intro x hx
    exact docPattern_ne_empty x (List.of_mem_filter hx)
  have he : collectDocs hrefs = buildAux 0 (hrefs.filter docPattern) := by
    unfold collectDocs
    rw [collectAux_eq]
    simp
  constructor
  · rw [he, buildAux_length _ 0 hne]
  · intro i hi
    rw [he, buildAux_getD _ 0 i hne hi, Nat.zero_add]

theorem C5_document_collection_witness :
    0 < (["/document?docSeqNo=4821"].filter docPattern).length ∧
    (collectDocs ["/document?docSeqNo=4821"]).getD 0 ⟨0, "", "", "", ""⟩ =
      mkDoc 0 ((["/document?docSeqNo=4821"].filter docPattern).getD 0 "") :=
  ⟨by decide, (C5_document_collection.1 ["/document?docSeqNo=4821"]).2 0 (by decide)⟩

/-- C3: for every list of rendered input values, the positional
extractor maps position `i` (0-16) to the `i`-th name of the fixed
table: the field is present with that value exactly when position `i`
exists and its value is non-empty (so with fewer than 17 inputs only
the present positions are mapped, with no error, and inputs beyond
position 16 are ignored); no name outside the table is ever written;
and 17 non-empty values in order populate every field per the table. -/
theorem C3_positional_fields :
    (∀ (d : String) (values : List String) (i : Nat), i < 17 →
      dget (applyFields fieldMap [("dsn", d)] values)
          ((fieldMap.getD i (0, "")).2) =
        if i < values.length ∧ values.getD i "" ≠ "" then
          some (values.getD i "")
        else none) ∧
    (∀ (d j : String) (values : List String), j ≠ "dsn" →
      (∀ p ∈ fieldMap, p.2 ≠ j) →
      dget (applyFields fieldMap [("dsn", d)] values) j = none) ∧
    (∀ (d v0 v1 v2 v3 v4 v5 v6 v7 v8 v9 v10 v11 v12 v13 v14 v15 v16 : String),
      v0 ≠ "" → v1 ≠ "" → v2 ≠ "" → v3 ≠ "" → v4 ≠ "" → v5 ≠ "" → v6 ≠ "" → v7 ≠ "" → v8 ≠ "" → v9 ≠ "" → v10 ≠ "" → v11 ≠ "" → v12 ≠ "" → v13 ≠ "" → v14 ≠ "" → v15 ≠ "" → v16 ≠ "" →
      applyFields fieldMap [("dsn", d)]
          [v0, v1, v2, v3, v4, v5, v6, v7, v8, v9, v10, v11, v12, v13, v14, v15, v16] =
        [("dsn", d), ("activity_type", v0), ("status", v1), ("jurisdiction", v2), ("dnr_region", v3), ("county", v4), ("location_name", v5), ("address", v6), ("municipality", v7), ("plss_description", v8), ("latitude", v9), ("longitude", v10), ("acres", v11), ("facility_id", v12), ("pecfa_number", v13), ("epa_id", v14), ("start_date", v15), ("end_date", v16)]) := by
  refine ⟨?_, ?_, ?_⟩
  · intro d values i hi
    interval_cases i
    · exact applyFields_dget_write []
        0 "activity_type" [(1, "status"), (2, "jurisdiction"), (3, "dnr_region"), (4, "county"), (5, "location_name"), (6, "address"), (7, "municipality"), (8, "plss_description"), (9, "latitude"), (10, "longitude"), (11, "acres"), (12, "facility_id"), (13, "pecfa_number"), (14, "epa_id"), (15, "start_date"), (16, "end_date")]
        [("dsn", d)] values (by decide) (by decide) (fun h => absurd h (by decide))
    · exact applyFields_dget_write [(0, "activity_type")]
        1 "status" [(2, "jurisdiction"), (3, "dnr_region"), (4, "county"), (5, "location_name"), (6, "address"), (7, "municipality"), (8, "plss_description"), (9, "latitude"), (10, "longitude"), (11, "acres"), (12, "facility_id"), (13, "pecfa_number"), (14, "epa_id"), (15, "start_date"), (16, "end_date")]
        [("dsn", d)] values (by decide) (by decide) (fun h => absurd h (by decide))
    · exact applyFields_dget_write [(0, "activity_type"), (1, "status")]
        2 "jurisdiction" [(3, "dnr_region"), (4, "county"), (5, "location_name"), (6, "address"), (7, "municipality"), (8, "plss_description"), (9, "latitude"), (10, "longitude"), (11, "acres"), (12, "facility_id"), (13, "pecfa_number"), (14, "epa_id"), (15, "start_date"), (16, "end_date")]
        [("dsn", d)] values (by decide) (by decide) (fun h => absurd h (by decide))
    · exact applyFields_dget_write [(0, "activity_type"), (1, "status"), (2, "jurisdiction")]
        3 "dnr_region" [(4, "county"), (5, "location_name"), (6, "address"), (7, "municipality"), (8, "plss_description"), (9, "latitude"), (10, "longitude"), (11, "acres"), (12, "facility_id"), (13, "pecfa_number"), (14, "epa_id"), (15, "start_date"), (16, "end_date")]
        [("dsn", d)] values (by decide) (by decide) (fun h => absurd h (by decide))
    · exact applyFields_dget_write [(0, "activity_type"), (1, "status"), (2, "jurisdiction"), (3, "dnr_region")]
        4 "county" [(5, "location_name"), (6, "address"), (7, "municipality"), (8, "plss_description"), (9, "latitude"), (10, "longitude"), (11, "acres"), (12, "facility_id"), (13, "pecfa_number"), (14, "epa_id"), (15, "start_date"), (16, "end_date")]
        [("dsn", d)] values (by decide) (by decide) (fun h => absurd h (by decide))
    · exact applyFields_dget_write [(0, "activity_type"), (1, "status"), (2, "jurisdiction"), (3, "dnr_region"), (4, "county")]
        5 "location_name" [(6, "address"), (7, "municipality"), (8, "plss_description"), (9, "latitude"), (10, "longitude"), (11, "acres"), (12, "facility_id"), (13, "pecfa_number"), (14, "epa_id"), (15, "start_date"), (16, "end_date")]
        [("dsn", d)] values (by decide) (by decide) (fun _ => rfl)
    · exact applyFields_dget_write [(0, "activity_type"), (1, "status"), (2, "jurisdiction"), (3, "dnr_region"), (4, "county"), (5, "location_name")]
        6 "address" [(7, "municipality"), (8, "plss_description"), (9, "latitude"), (10, "longitude"), (11, "acres"), (12, "facility_id"), (13, "pecfa_number"), (14, "epa_id"), (15, "start_date"), (16, "end_date")]
        [("dsn", d)] values (by decide) (by decide) (fun h => absurd h (by decide))
    · exact applyFields_dget_write [(0, "activity_type"), (1, "status"), (2, "jurisdiction"), (3, "dnr_region"), (4, "county"), (5, "location_name"), (6, "address")]
        7 "municipality" [(8, "plss_description"), (9, "latitude"), (10, "longitude"), (11, "acres"), (12, "facility_id"), (13, "pecfa_number"), (14, "epa_id"), (15, "start_date"), (16, "end_date")]
        [("dsn", d)] values (by decide) (by decide) (fun h => absurd h (by decide))
    · exact applyFields_dget_write [(0, "activity_type"), (1, "status"), (2, "jurisdiction"), (3, "dnr_region"), (4, "county"), (5, "location_name"), (6, "address"), (7, "municipality")]
        8 "plss_description" [(9, "latitude"), (10, "longitude"), (11, "acres"), (12, "facility_id"), (13, "pecfa_number"), (14, "epa_id"), (15, "start_date"), (16, "end_date")]
        [("dsn", d)] values (by decide) (by decide) (fun h => absurd h (by decide))
    · exact applyFields_dget_write [(0, "activity_type"), (1, "status"), (2, "jurisdiction"), (3, "dnr_region"), (4, "county"), (5, "location_name"), (6, "address"), (7, "municipality"), (8, "plss_description")]
        9 "latitude" [(10, "longitude"), (11, "acres"), (12, "facility_id"), (13, "pecfa_number"), (14, "epa_id"), (15, "start_date"), (16, "end_date")]
        [("dsn", d)] values (by decide) (by decide) (fun h => absurd h (by decide))
    · exact applyFields_dget_write [(0, "activity_type"), (1, "status"), (2, "jurisdiction"), (3, "dnr_region"), (4, "county"), (5, "location_name"), (6, "address"), (7, "municipality"), (8, "plss_description"), (9, "latitude")]
        10 "longitude" [(11, "acres"), (12, "facility_id"), (13, "pecfa_number"), (14, "epa_id"), (15, "start_date"), (16, "end_date")]
        [("dsn", d)] values (by decide) (by decide) (fun h => absurd h (by decide))
    · exact applyFields_dget_write [(0, "activity_type"), (1, "status"), (2, "jurisdiction"), (3, "dnr_region"), (4, "county"), (5, "location_name"), (6, "address"), (7, "municipality"), (8, "plss_description"), (9, "latitude"), (10, "longitude")]
        11 "acres" [(12, "facility_id"), (13, "pecfa_number"), (14, "epa_id"), (15, "start_date"), (16, "end_date")]
        [("dsn", d)] values (by decide) (by decide) (fun h => absurd h (by decide))
    · exact applyFields_dget_write [(0, "activity_type"), (1, "status"), (2, "jurisdiction"), (3, "dnr_region"), (4, "county"), (5, "location_name"), (6, "address"), (7, "municipality"), (8, "plss_description"), (9, "latitude"), (10, "longitude"), (11, "acres")]
        12 "facility_id" [(13, "pecfa_number"), (14, "epa_id"), (15, "start_date"), (16, "end_date")]
        [("dsn", d)] values (by decide) (by decide) (fun h => absurd h (by decide))
    · exact applyFields_dget_write [(0, "activity_type"), (1, "status"), (2, "jurisdiction"), (3, "dnr_region"), (4, "county"), (5, "location_name"), (6, "address"), (7, "municipality"), (8, "plss_description"), (9, "latitude"), (10, "longitude"), (11, "acres"), (12, "facility_id")]
        13 "pecfa_number" [(14, "epa_id"), (15, "start_date"), (16, "end_date")]
        [("dsn", d)] values (by decide) (by decide) (fun h => absurd h (by decide))
    · exact applyFields_dget_write [(0, "activity_type"), (1, "status"), (2, "jurisdiction"), (3, "dnr_region"), (4, "county"), (5, "location_name"), (6, "address"), (7, "municipality"), (8, "plss_description"), (9, "latitude"), (10, "longitude"), (11, "acres"), (12, "facility_id"), (13, "pecfa_number")]
        14 "epa_id" [(15, "start_date"), (16, "end_date")]
        [("dsn", d)] values (by decide) (by decide) (fun h => absurd h (by decide))
    · exact applyFields_dget_write [(0, "activity_type"), (1, "status"), (2, "jurisdiction"), (3, "dnr_region"), (4, "county"), (5, "location_name"), (6, "address"), (7, "municipality"), (8, "plss_description"), (9, "latitude"), (10, "longitude"), (11, "acres"), (12, "facility_id"), (13, "pecfa_number"), (14, "epa_id")]
        15 "start_date" [(16, "end_date")]
        [("dsn", d)] values (by decide) (by decide) (fun h => absurd h (by decide))
    · exact applyFields_dget_write [(0, "activity_type"), (1, "status"), (2, "jurisdiction"), (3, "dnr_region"), (4, "county"), (5, "location_name"), (6, "address"), (7, "municipality"), (8, "plss_description"), (9, "latitude"), (10, "longitude"), (11, "acres"), (12, "facility_id"), (13, "pecfa_number"), (14, "epa_id"), (15, "start_date")]
        16 "end_date" []
        [("dsn", d)] values (by decide) (by decide) (fun h => absurd h (by decide))
  · intro d j values hj1 hj2
    rw [applyFields_dget_ne fieldMap _ values j hj2]
    simp [dget, Ne.symm hj1]
  · intro d v0 v1 v2 v3 v4 v5 v6 v7 v8 v9 v10 v11 v12 v13 v14 v15 v16 h0 h1 h2 h3 h4 h5 h6 h7 h8 h9 h10 h11 h12 h13 h14 h15 h16
    simp [applyFields, fieldMap, dictInsert, dmem, h0, h1, h2, h3, h4, h5, h6, h7, h8, h9, h10, h11, h12, h13, h14, h15, h16]

theorem C3_positional_fields_witness :
    dget (applyFields fieldMap [("dsn", "271147")] ["LUST", ""])
        ((fieldMap.getD 0 (0, "")).2) = some "LUST" ∧
    dget (applyFields fieldMap [("dsn", "271147")] ["LUST", ""])
        ((fieldMap.getD 1 (0, "")).2) = none ∧
    dget (applyFields fieldMap [("dsn", "271147")] ["LUST", ""])
        ((fieldMap.getD 16 (0, "")).2) = none ∧
    dget (applyFields fieldMap [("dsn", "271147")] ["LUST", ""]) "summary" = none ∧
    applyFields fieldMap [("dsn", "271147")]
        ["w0", "w1", "w2", "w3", "w4", "w5", "w6", "w7", "w8", "w9", "w10", "w11", "w12", "w13", "w14", "w15", "w16"] =
      [("dsn", "271147"), ("activity_type", "w0"), ("status", "w1"), ("jurisdiction", "w2"), ("dnr_region", "w3"), ("county", "w4"), ("location_name", "w5"), ("address", "w6"), ("municipality", "w7"), ("plss_description", "w8"), ("latitude", "w9"), ("longitude", "w10"), ("acres", "w11"), ("facility_id", "w12"), ("pecfa_number", "w13"), ("epa_id", "w14"), ("start_date", "w15"), ("end_date", "w16")] :=
  ⟨(C3_positional_fields.1 "271147" ["LUST", ""] 0 (by decide)).trans (by decide),
   (C3_positional_fields.1 "271147" ["LUST", ""] 1 (by decide)).trans (by decide),
   (C3_positional_fields.1 "271147" ["LUST", ""] 16 (by decide)).trans (by decide),
   C3_positional_fields.2.1 "271147" "summary" ["LUST", ""] (by decide) (by decide),
   C3_positional_fields.2.2 "271147" "w0" "w1" "w2" "w3" "w4" "w5" "w6" "w7" "w8" "w9" "w10" "w11" "w12" "w13" "w14" "w15" "w16"
     (by decide) (by decide) (by decide) (by decide) (by decide) (by decide) (by decide) (by decide) (by decide) (by decide) (by decide) (by decide) (by decide) (by decide) (by decide) (by decide) (by decide)⟩

/-- C4: on the success path the risk classifier sets `status_label` to
the uppercased status (or `"UNKNOWN"` when absent or empty), sets
`petroleum` iff the activity type equals `"LUST"` case-insensitively
or the lowercased page text contains `"petroleum"`, sets `pfas` iff it
contains `"pfas"`, sets `heavy_metals` iff it contains one of
`"arsenic"`, `"lead"`, `"mercury"`, `"chromium"`, and omits every flag
that evaluates false, so keyword-free text leaves only `status_label`. -/
theorem C4_risk_flags (si : List (String × String)) (text : List Char) :
    dget (computeFlags [("status_label", FVal.s "UNKNOWN")] si text)
        "status_label" =
      some (FVal.s (if pyUpper ((dget si "status").getD "") ≠ "" then
        pyUpper ((dget si "status").getD "") else "UNKNOWN")) ∧
    dget (computeFlags [("status_label", FVal.s "UNKNOWN")] si text)
        "petroleum" =
      (if petroCond si text then some (FVal.b true) else none) ∧
    dget (computeFlags [("status_label", FVal.s "UNKNOWN")] si text) "pfas" =
      (if pfasCond text then some (FVal.b true) else none) ∧
    dget (computeFlags [("status_label", FVal.s "UNKNOWN")] si text)
        "heavy_metals" =
      (if metalsCond text then some (FVal.b true) else none) ∧
    (computeFlags [("status_label", FVal.s "UNKNOWN")] si text).map Prod.fst =
      "status_label" ::
        ((if petroCond si text then ["petroleum"] else []) ++
         (if pfasCond text then ["pfas"] else []) ++
         (if metalsCond text then ["heavy_metals"] else [])) := by
  cases hc1 : petroCond si text <;>
  cases hc2 : pfasCond text <;>
  cases hc3 : metalsCond text <;>
  simp [computeFlags, dictInsert, dmem, dget, hc1, hc2, hc3]

end BScraper
